import Mathlib

/-!
Shallow embedding of the Autologic reasoning engine's resilience layer and
phase state machine (autologic/core/resilience.py, engine.py, critic.py,
models.py), with theorems checking the natural-language specification.
-/

set_option maxRecDepth 100000

namespace Autologic

/-- Substring test: `pat` occurs inside `s` (Python's `pat in s`). -/
def strContains (s pat : String) : Bool :=
  decide (pat.data <:+: s.data)

/-- Python `str.lower()` on the character list of a string. -/
def strLower (s : String) : String :=
  ⟨s.data.map Char.toLower⟩

/-- Python `str.strip()` on the character list of a string. -/
def strStrip (s : String) : String :=
  ⟨((s.data.dropWhile Char.isWhitespace).reverse.dropWhile Char.isWhitespace).reverse⟩

instance instDecEqExcept {ε α : Type} [DecidableEq ε] [DecidableEq α] :
    DecidableEq (Except ε α) := fun x y =>
  match x, y with
  | .ok a, .ok b =>
    if h : a = b then isTrue (by rw [h]) else isFalse (fun hh => by cases hh; exact h rfl)
  | .error e, .error e' =>
    if h : e = e' then isTrue (by rw [h]) else isFalse (fun hh => by cases hh; exact h rfl)
  | .ok _, .error _ => isFalse (fun hh => by cases hh)
  | .error _, .ok _ => isFalse (fun hh => by cases hh)

/-! ## Resilience layer (autologic/core/resilience.py) -/

/-- A Python exception value, identified by its `str(error)` rendering,
which is all `ResilientCaller` ever inspects. -/
structure PyErr where
  msg : String
deriving DecidableEq

/-- An exception as finally raised: the error together with its explicit
cause (`raise err from cause`). -/
structure RaisedErr where
  err : PyErr
  cause : Option PyErr
deriving DecidableEq

/-- `ResilienceConfig` dataclass (resilience.py lines 24-32). -/
structure ResilienceConfig where
  rate_limit : Rat
  retry_enabled : Bool
  max_retries : Nat
  retry_base_delay : Rat
  fallback_enabled : Bool
deriving DecidableEq

/-- Dataclass field defaults of `ResilienceConfig`. -/
def ResilienceConfig.defaults : ResilienceConfig :=
  { rate_limit := 5, retry_enabled := false, max_retries := 3
    retry_base_delay := 1, fallback_enabled := false }

/-- `ResilientCaller.RETRYABLE_STATUS_CODES` as the searched digit strings. -/
def RETRYABLE_STATUS_CODES : List String := ["429", "500", "502", "503", "504"]

/-- `ResilientCaller.FALLBACK_STATUS_CODES` as the searched digit strings. -/
def FALLBACK_STATUS_CODES : List String := ["404", "429", "500", "502", "503", "504"]

/-- `ResilientCaller.OPENROUTER_FALLBACK_MESSAGES`. -/
def OPENROUTER_FALLBACK_MESSAGES : List String :=
  ["no endpoints found", "data policy", "model not available",
   "model is currently overloaded", "model unavailable"]

/-- The `retryable_messages` list local to `_is_retryable_error`. -/
def retryable_messages : List String :=
  ["rate limit", "too many requests", "service unavailable", "timeout",
   "connection", "overloaded", "capacity"]

/-- `ResilientCaller._is_retryable_error`: lowercase the error text, search the
retryable status codes then the common retryable messages. -/
def isRetryableError (e : PyErr) : Bool :=
  let error_str := strLower e.msg
  RETRYABLE_STATUS_CODES.any (fun code => strContains error_str code) ||
    retryable_messages.any (fun m => strContains error_str m)

/-- `ResilientCaller._should_fallback`: lowercase the error text, search the
fallback status codes then the OpenRouter-specific messages. -/
def shouldFallback (e : PyErr) : Bool :=
  let error_str := strLower e.msg
  FALLBACK_STATUS_CODES.any (fun code => strContains error_str code) ||
    OPENROUTER_FALLBACK_MESSAGES.any (fun m => strContains error_str m)

/-- Keyword arguments of a Python call, with values in `V`. -/
abbrev Kwargs (V : Type) := List (String × V)

/-- Result of the `for attempt in range(attempts)` loop of
`ResilientCaller.call`. -/
inductive LoopRes (α : Type) where
  /-- `func` returned normally inside the loop. -/
  | success (a : α)
  /-- the in-loop `raise`: the error is neither retryable nor
  fallback-eligible. -/
  | terminal (e : PyErr)
  /-- the loop broke out (non-retryable fallback-eligible error) or ran out
  of attempts; `last_exception` holds this error. -/
  | exhausted (last : PyErr)
deriving DecidableEq

/-- The retry loop of `ResilientCaller.call` (resilience.py lines 217-250).
`f i` is the outcome of the i-th invocation of the wrapped function,
`attempt` the current 0-based attempt index, and `rest` the number of loop
iterations remaining after this one (`attempts - 1 - attempt`).  Returns the
loop result, the number of invocations performed, and the backoff sleeps. -/
def callLoop (cfg : ResilienceConfig) (f : Nat → Except PyErr α)
    (attempt : Nat) (rest : Nat) : LoopRes α × Nat × List Rat :=
  match f attempt with
  | .ok a => (.success a, 1, [])
  | .error e =>
    if !isRetryableError e && !shouldFallback e then
      (.terminal e, 1, [])
    else if !isRetryableError e && shouldFallback e then
      (.exhausted e, 1, [])
    else
      match rest with
      | 0 => (.exhausted e, 1, [])
      | rest' + 1 =>
        let delay := cfg.retry_base_delay * 2 ^ attempt
        let (res, n, sleeps) := callLoop cfg f (attempt + 1) rest'
        (res, n + 1, delay :: sleeps)

/-- Observable trace of one `ResilientCaller.call`: the final outcome (result
or raised exception with cause), the keyword arguments delivered to each
primary invocation, the keyword arguments delivered to each fallback
invocation, and the backoff sleep durations. -/
structure CallTrace (V : Type) (α : Type) where
  outcome : Except RaisedErr α
  primaryKwargs : List (Kwargs V)
  fallbackKwargs : List (Kwargs V)
  sleeps : List Rat
deriving DecidableEq

/-- `ResilientCaller.call` (resilience.py lines 189-269), shallowly embedded.
`func kwargs i` is the outcome of the i-th invocation of the primary function
when it receives `kwargs`; `fallback_func` is the optional fallback. The
`attempts` budget, classification, break/raise structure and fallback gating
follow the source line by line. -/
def ResilientCaller.call (cfg : ResilienceConfig)
    (func : Kwargs V → Nat → Except PyErr α)
    (fallback_func : Option (Kwargs V → Except PyErr α))
    (kwargs : Kwargs V) : CallTrace V α :=
  let attempts := if cfg.retry_enabled then cfg.max_retries + 1 else 1
  match callLoop cfg (func kwargs) 0 (attempts - 1) with
  | (.success a, n, sleeps) =>
    ⟨.ok a, List.replicate n kwargs, [], sleeps⟩
  | (.terminal e, n, sleeps) =>
    ⟨.error ⟨e, none⟩, List.replicate n kwargs, [], sleeps⟩
  | (.exhausted last, n, sleeps) =>
    -- `if self._config.fallback_enabled and fallback_func and
    --  self._should_fallback(last_exception)`
    match fallback_func with
    | some g =>
      if cfg.fallback_enabled && shouldFallback last then
        match g kwargs with
        | .ok b => ⟨.ok b, List.replicate n kwargs, [kwargs], sleeps⟩
        | .error fe =>
          -- `raise last_exception from fallback_error`
          ⟨.error ⟨last, some fe⟩, List.replicate n kwargs, [kwargs], sleeps⟩
      else ⟨.error ⟨last, none⟩, List.replicate n kwargs, [], sleeps⟩
    | none => ⟨.error ⟨last, none⟩, List.replicate n kwargs, [], sleeps⟩

/-- Python's binding of `call(self, func, *args, fallback_func=None,
**kwargs)`: the `fallback_func` keyword is bound to its own parameter and
every other keyword argument stays in `kwargs`, forwarded untouched. -/
def bindCallKwargs (raw : Kwargs V) : Kwargs V :=
  raw.filter (fun p => p.1 != "fallback_func")

/-- `ResilientCaller.call` as invoked with a raw keyword-argument dictionary:
Python first splits off `fallback_func`, then runs the call body. -/
def callPy (cfg : ResilienceConfig) (func : Kwargs V → Nat → Except PyErr α)
    (fallback_func : Option (Kwargs V → Except PyErr α))
    (raw : Kwargs V) : CallTrace V α :=
  ResilientCaller.call cfg func fallback_func (bindCallKwargs raw)

/-- The error Python raises when a zero-parameter function receives a keyword
argument. -/
def typeErrorKw : PyErr :=
  ⟨"TypeError: got an unexpected keyword argument"⟩

/-- Python call semantics of the zero-parameter `_make_call` closure of
`OpenRouterLLM.call`: invoking it with any keyword argument raises TypeError;
otherwise its i-th invocation behaves as `f i`. -/
def pyZeroArgFun (f : Nat → Except PyErr α) (kw : Kwargs V) (i : Nat) :
    Except PyErr α :=
  if kw.isEmpty then f i else .error typeErrorKw

/-- Python call semantics of the zero-parameter `_fallback_call` closure:
keyword arguments raise TypeError, otherwise the call has outcome `r`. -/
def pyZeroArgFallback (r : Except PyErr α) (kw : Kwargs V) : Except PyErr α :=
  if kw.isEmpty then r else .error typeErrorKw

/-- The dispatch of `OpenRouterLLM.call` into the `ResilientCaller`
(llm_provider.py lines 194-218): the stored config keyed by the resilience
key, the zero-parameter `_make_call`, the optional zero-parameter
`_fallback_call`, and a `resilience_override` keyword argument. -/
def openRouterDispatch (storedCfg : ResilienceConfig)
    (mc : Nat → Except PyErr α) (fbRes : Option (Except PyErr α))
    (ov : V) : CallTrace V α :=
  ResilientCaller.call storedCfg (pyZeroArgFun mc)
    (fbRes.map (fun r => pyZeroArgFallback r))
    [("resilience_override", ov)]

/-! ## Lemmas about the retry loop -/

theorem delayShift (d : Rat) (attempt j : Nat) :
    d * 2 ^ attempt :: (List.range j).map (fun i => d * 2 ^ (attempt + 1 + i)) =
      (List.range (j + 1)).map (fun i => d * 2 ^ (attempt + i)) := by
  rw [List.range_succ_eq_map]
  simp only [List.map_cons, Nat.add_zero, List.map_map]
  congr 1
  apply List.map_congr_left
  intro i _
  simp only [Function.comp_apply]
  rw [show attempt + 1 + i = attempt + Nat.succ i by omega]

theorem callLoop_success {α : Type} (cfg : ResilienceConfig)
    (f : Nat → Except PyErr α) (a : α) :
    ∀ (j attempt rest : Nat),
      (∀ i, i < j → ∃ e, f (attempt + i) = .error e ∧ isRetryableError e = true) →
      f (attempt + j) = .ok a → j ≤ rest →
      callLoop cfg f attempt rest =
        (.success a, j + 1,
          (List.range j).map (fun i => cfg.retry_base_delay * 2 ^ (attempt + i))) := by
  intro j
  induction j with
  | zero =>
    intro attempt rest _ hsucc _
    rw [Nat.add_zero] at hsucc
    unfold callLoop
    rw [hsucc]
    simp
  | succ j ih =>
    intro attempt rest hfail hsucc hle
    obtain ⟨e, hfe, hre⟩ := hfail 0 (Nat.succ_pos j)
    rw [Nat.add_zero] at hfe
    obtain ⟨rest', rfl⟩ : ∃ r', rest = r' + 1 := ⟨rest - 1, by omega⟩
    have hrec := ih (attempt + 1) rest'
      (fun i hi => by
        obtain ⟨e', he', hre'⟩ := hfail (i + 1) (by omega)
        exact ⟨e', by rw [show attempt + 1 + i = attempt + (i + 1) by omega]; exact he',
          hre'⟩)
      (by rw [show attempt + 1 + j = attempt + (j + 1) by omega]; exact hsucc)
      (by omega)
    unfold callLoop
    rw [hfe]
    simp only [hre, hrec, Bool.not_true, Bool.false_and, Bool.false_eq_true, if_false]
    rw [delayShift]

theorem callLoop_exhausted {α : Type} (cfg : ResilienceConfig)
    (f : Nat → Except PyErr α) (e : Nat → PyErr) :
    ∀ (rest attempt : Nat),
      (∀ i, i ≤ rest → f (attempt + i) = .error (e (attempt + i)) ∧
        isRetryableError (e (attempt + i)) = true) →
      callLoop cfg f attempt rest =
        (.exhausted (e (attempt + rest)), rest + 1,
          (List.range rest).map (fun i => cfg.retry_base_delay * 2 ^ (attempt + i))) := by
  intro rest
  induction rest with
  | zero =>
    intro attempt hfail
    obtain ⟨hfe, hre⟩ := hfail 0 (Nat.le_refl 0)
    rw [Nat.add_zero] at hfe hre
    unfold callLoop
    rw [hfe]
    simp [hre]
  | succ rest ih =>
    intro attempt hfail
    obtain ⟨hfe, hre⟩ := hfail 0 (Nat.zero_le _)
    rw [Nat.add_zero] at hfe hre
    have hrec := ih (attempt + 1)
      (fun i hi => by
        obtain ⟨he', hre'⟩ := hfail (i + 1) (by omega)
        rw [show attempt + 1 + i = attempt + (i + 1) by omega]
        exact ⟨he', hre'⟩)
    unfold callLoop
    rw [hfe]
    simp only [hre, hrec, Bool.not_true, Bool.false_and, Bool.false_eq_true, if_false]
    rw [delayShift, show attempt + 1 + rest = attempt + (rest + 1) by omega]

/-- Claim C1: with retry enabled, a function raising a retryable error on each
of its first K invocations and succeeding on invocation K+1 makes
`ResilientCaller.call` return the success after exactly K+1 invocations when
`max_retries ≥ K`, and raise after exactly `max_retries + 1` invocations when
`max_retries < K` and the fallback is not applicable. -/
theorem resilientCaller_retry_spec {V α : Type}
    (cfg : ResilienceConfig) (kw : Kwargs V)
    (fb : Option (Kwargs V → Except PyErr α))
    (f : Nat → Except PyErr α) (e : Nat → PyErr) (K : Nat) (a : α)
    (hretry : cfg.retry_enabled = true)
    (hfail : ∀ i, i < K → f i = .error (e i))
    (hre : ∀ i, i < K → isRetryableError (e i) = true)
    (hsucc : f K = .ok a) :
    (K ≤ cfg.max_retries →
      (ResilientCaller.call cfg (fun _ => f) fb kw).outcome = .ok a ∧
      (ResilientCaller.call cfg (fun _ => f) fb kw).primaryKwargs.length = K + 1) ∧
    (cfg.max_retries < K →
      (cfg.fallback_enabled = false ∨ fb = none ∨
          shouldFallback (e cfg.max_retries) = false) →
      (ResilientCaller.call cfg (fun _ => f) fb kw).outcome =
        .error ⟨e cfg.max_retries, none⟩ ∧
      (ResilientCaller.call cfg (fun _ => f) fb kw).primaryKwargs.length =
        cfg.max_retries + 1) := by
  constructor
  · intro hK
    have hloop := callLoop_success cfg f a K 0 cfg.max_retries
      (fun i hi => ⟨e i, by simpa using hfail i hi, hre i hi⟩)
      (by simpa using hsucc) hK
    unfold ResilientCaller.call
    simp only [hretry, if_true, Nat.add_sub_cancel, hloop]
    simp
  · intro hK hnofb
    have hloop := callLoop_exhausted cfg f e cfg.max_retries 0
      (fun i hi => ⟨by simpa using hfail i (by omega), by simpa using hre i (by omega)⟩)
    simp only [Nat.zero_add] at hloop
    unfold ResilientCaller.call
    simp only [hretry, if_true, Nat.add_sub_cancel, hloop]
    rcases hnofb with hno | hno | hno
    · cases fb with
      | none => simp
      | some g => simp [hno]
    · simp [hno]
    · cases fb with
      | none => simp
      | some g => simp [hno]

/-- Witness for C1: a function that times out twice then succeeds, under a
retry-enabled config with `max_retries = 3`, returns the success with exactly
3 invocations; under `max_retries = 1` it raises after 2 invocations. -/
theorem resilientCaller_retry_spec_witness :
    ((ResilientCaller.call ⟨5, true, 3, 1, false⟩
        (fun _ i => if i < 2 then .error ⟨"timeout"⟩ else .ok "done")
        none ([] : Kwargs Unit)).outcome = .ok "done" ∧
      (ResilientCaller.call ⟨5, true, 3, 1, false⟩
        (fun _ i => if i < 2 then .error ⟨"timeout"⟩ else .ok "done")
        none ([] : Kwargs Unit)).primaryKwargs.length = 3) ∧
    ((ResilientCaller.call ⟨5, true, 1, 1, false⟩
        (fun _ i => if i < 2 then .error ⟨"timeout"⟩ else .ok "done")
        none ([] : Kwargs Unit)).outcome = .error ⟨⟨"timeout"⟩, none⟩ ∧
      (ResilientCaller.call ⟨5, true, 1, 1, false⟩
        (fun _ i => if i < 2 then .error ⟨"timeout"⟩ else .ok "done")
        none ([] : Kwargs Unit)).primaryKwargs.length = 2) := by
  constructor
  · exact (resilientCaller_retry_spec ⟨5, true, 3, 1, false⟩ [] none
      (fun i => if i < 2 then .error ⟨"timeout"⟩ else .ok "done")
      (fun _ => ⟨"timeout"⟩) 2 "done" rfl (by decide) (by decide) (by decide)).1
      (by decide)
  · exact (resilientCaller_retry_spec ⟨5, true, 1, 1, false⟩ [] none
      (fun i => if i < 2 then .error ⟨"timeout"⟩ else .ok "done")
      (fun _ => ⟨"timeout"⟩) 2 "done" rfl (by decide) (by decide) (by decide)).2
      (by decide) (Or.inr (Or.inl rfl))

/-- Claim C2: a fallback-eligible non-retryable primary error with fallback
enabled and supplied invokes the primary exactly once and returns the
fallback's result; a failing fallback makes the original error be raised with
the fallback's error as its cause. -/
theorem resilientCaller_fallback_spec {V α : Type}
    (cfg : ResilienceConfig) (kw : Kwargs V)
    (f : Nat → Except PyErr α) (g : Kwargs V → Except PyErr α) (e0 : PyErr)
    (h0 : f 0 = .error e0)
    (hnr : isRetryableError e0 = false)
    (hfb : shouldFallback e0 = true)
    (hen : cfg.fallback_enabled = true) :
    (∀ b, g kw = .ok b →
      ResilientCaller.call cfg (fun _ => f) (some g) kw =
        ⟨.ok b, [kw], [kw], []⟩) ∧
    (∀ fe, g kw = .error fe →
      ResilientCaller.call cfg (fun _ => f) (some g) kw =
        ⟨.error ⟨e0, some fe⟩, [kw], [kw], []⟩) := by
  have hloop : ∀ rest, callLoop cfg f 0 rest = (.exhausted e0, 1, []) := by
    intro rest
    unfold callLoop
    rw [h0]
    simp [hnr, hfb]
  constructor
  · intro b hgb
    unfold ResilientCaller.call
    simp only [hloop, hen, hfb, hgb, Bool.and_self, if_true]
    simp
  · intro fe hgfe
    unfold ResilientCaller.call
    simp only [hloop, hen, hfb, hgfe, Bool.and_self, if_true]
    simp

/-- Witness for C2: a 404 "model not found" error (fallback-eligible, not
retryable) with a fallback: the primary runs once and the fallback's result
is returned; with a failing fallback the original 404 error is raised with
the fallback failure as cause. -/
theorem resilientCaller_fallback_spec_witness :
    ResilientCaller.call ⟨5, false, 3, 1, true⟩
        (fun _ _ => .error ⟨"404 model not found"⟩)
        (some (fun _ => .ok "fallback answer")) ([] : Kwargs Unit) =
      ⟨.ok "fallback answer", [[]], [[]], []⟩ ∧
    ResilientCaller.call ⟨5, false, 3, 1, true⟩
        (fun _ _ => (.error ⟨"404 model not found"⟩ : Except PyErr String))
        (some (fun _ => .error ⟨"fallback broke"⟩)) ([] : Kwargs Unit) =
      ⟨.error ⟨⟨"404 model not found"⟩, some ⟨"fallback broke"⟩⟩, [[]], [[]], []⟩ := by
  constructor
  · exact (resilientCaller_fallback_spec ⟨5, false, 3, 1, true⟩ []
      (fun _ => .error ⟨"404 model not found"⟩) (fun _ => .ok "fallback answer")
      ⟨"404 model not found"⟩ rfl (by decide) (by decide) rfl).1 "fallback answer" rfl
  · exact (resilientCaller_fallback_spec ⟨5, false, 3, 1, true⟩ []
      (fun _ => .error ⟨"404 model not found"⟩) (fun _ => .error ⟨"fallback broke"⟩)
      ⟨"404 model not found"⟩ rfl (by decide) (by decide) rfl).2 ⟨"fallback broke"⟩ rfl

/-! ## Kwargs forwarding and override-independence (claim C10) -/

theorem callLoop_sleeps_shape {α : Type} (cfg : ResilienceConfig)
    (f : Nat → Except PyErr α) :
    ∀ (rest attempt : Nat),
      1 ≤ (callLoop cfg f attempt rest).2.1 ∧
      (callLoop cfg f attempt rest).2.2 =
        (List.range ((callLoop cfg f attempt rest).2.1 - 1)).map
          (fun i => cfg.retry_base_delay * 2 ^ (attempt + i)) := by
  intro rest
  induction rest with
  | zero =>
    intro attempt
    unfold callLoop
    cases hf : f attempt with
    | ok a => simp
    | error e =>
      cases h1 : (!isRetryableError e && !shouldFallback e) with
      | true => simp [h1]
      | false =>
        cases h2 : (!isRetryableError e && shouldFallback e) with
        | true => simp [h1, h2]
        | false => simp [h1, h2]
  | succ rest ih =>
    intro attempt
    unfold callLoop
    cases hf : f attempt with
    | ok a => simp
    | error e =>
      cases h1 : (!isRetryableError e && !shouldFallback e) with
      | true => simp [h1]
      | false =>
        cases h2 : (!isRetryableError e && shouldFallback e) with
        | true => simp [h1, h2]
        | false =>
          obtain ⟨hpos, hsl⟩ := ih (attempt + 1)
          rcases hcl : callLoop cfg f (attempt + 1) rest with ⟨res, n, sl⟩
          rw [hcl] at hpos hsl
          simp only [h1, h2, Bool.false_eq_true, if_false, hcl]
          refine ⟨by omega, ?_⟩
          simp only at hpos hsl
          rw [hsl, delayShift, show n - 1 + 1 = n by omega, Nat.add_sub_cancel]

theorem call_kwargs_replicate {V α : Type} (cfg : ResilienceConfig)
    (func : Kwargs V → Nat → Except PyErr α)
    (fb : Option (Kwargs V → Except PyErr α)) (kw : Kwargs V) :
    (ResilientCaller.call cfg func fb kw).primaryKwargs =
      List.replicate (ResilientCaller.call cfg func fb kw).primaryKwargs.length kw ∧
    (ResilientCaller.call cfg func fb kw).fallbackKwargs =
      List.replicate (ResilientCaller.call cfg func fb kw).fallbackKwargs.length kw := by
  unfold ResilientCaller.call
  rcases hcl : callLoop cfg (func kw) 0
      ((if cfg.retry_enabled then cfg.max_retries + 1 else 1) - 1) with ⟨res, n, sl⟩
  cases res with
  | success a => simp [hcl]
  | terminal e => simp [hcl]
  | exhausted last =>
    cases fb with
    | none => simp [hcl]
    | some g =>
      cases hb : (cfg.fallback_enabled && shouldFallback last) with
      | false => simp [hcl, hb]
      | true =>
        cases hg : g kw with
        | ok b => simp [hcl, hb, hg]
        | error fe => simp [hcl, hb, hg]

theorem call_sleeps_shape {V α : Type} (cfg : ResilienceConfig)
    (func : Kwargs V → Nat → Except PyErr α)
    (fb : Option (Kwargs V → Except PyErr α)) (kw : Kwargs V) :
    1 ≤ (ResilientCaller.call cfg func fb kw).primaryKwargs.length ∧
    (ResilientCaller.call cfg func fb kw).sleeps =
      (List.range ((ResilientCaller.call cfg func fb kw).primaryKwargs.length - 1)).map
        (fun i => cfg.retry_base_delay * 2 ^ i) := by
  have hshape := callLoop_sleeps_shape cfg (func kw)
    ((if cfg.retry_enabled then cfg.max_retries + 1 else 1) - 1) 0
  unfold ResilientCaller.call
  rcases hcl : callLoop cfg (func kw) 0
      ((if cfg.retry_enabled then cfg.max_retries + 1 else 1) - 1) with ⟨res, n, sl⟩
  rw [hcl] at hshape
  simp only at hshape
  obtain ⟨hpos, hsl⟩ := hshape
  have hsl' : sl = (List.range (n - 1)).map (fun i => cfg.retry_base_delay * 2 ^ i) := by
    rw [hsl]
    apply List.map_congr_left
    intro i _
    rw [Nat.zero_add]
  cases res with
  | success a => simpa [hcl] using ⟨hpos, hsl'⟩
  | terminal e => simpa [hcl] using ⟨hpos, hsl'⟩
  | exhausted last =>
    cases fb with
    | none => simpa [hcl] using ⟨hpos, hsl'⟩
    | some g =>
      cases hb : (cfg.fallback_enabled && shouldFallback last) with
      | false => simpa [hcl, hb] using ⟨hpos, hsl'⟩
      | true =>
        cases hg : g kw with
        | ok b => simpa [hcl, hb, hg] using ⟨hpos, hsl'⟩
        | error fe => simpa [hcl, hb, hg] using ⟨hpos, hsl'⟩

theorem call_trace_congr {V W α : Type} (cfg : ResilienceConfig)
    (func : Kwargs V → Nat → Except PyErr α) (func' : Kwargs W → Nat → Except PyErr α)
    (fb : Option (Kwargs V → Except PyErr α)) (fb' : Option (Kwargs W → Except PyErr α))
    (kw : Kwargs V) (kw' : Kwargs W)
    (hf : func kw = func' kw')
    (hfb : fb.map (fun g => g kw) = fb'.map (fun g => g kw')) :
    (ResilientCaller.call cfg func fb kw).outcome =
      (ResilientCaller.call cfg func' fb' kw').outcome ∧
    (ResilientCaller.call cfg func fb kw).primaryKwargs.length =
      (ResilientCaller.call cfg func' fb' kw').primaryKwargs.length ∧
    (ResilientCaller.call cfg func fb kw).fallbackKwargs.length =
      (ResilientCaller.call cfg func' fb' kw').fallbackKwargs.length ∧
    (ResilientCaller.call cfg func fb kw).sleeps =
      (ResilientCaller.call cfg func' fb' kw').sleeps := by
  unfold ResilientCaller.call
  rw [hf]
  rcases hcl : callLoop cfg (func' kw') 0
      ((if cfg.retry_enabled then cfg.max_retries + 1 else 1) - 1) with ⟨res, n, sl⟩
  cases res with
  | success a => simp [hcl]
  | terminal e => simp [hcl]
  | exhausted last =>
    cases fb with
    | none =>
      cases fb' with
      | none => simp [hcl]
      | some g' => simp at hfb
    | some g =>
      cases fb' with
      | none => simp at hfb
      | some g' =>
        have hg : g kw = g' kw' := by simpa using hfb
        cases hb : (cfg.fallback_enabled && shouldFallback last) with
        | false => simp [hcl, hb]
        | true =>
          cases hg' : g' kw' with
          | ok b => simp [hcl, hb, hg, hg']
          | error fe => simp [hcl, hb, hg, hg']

/-- Claim C10: `ResilientCaller.call` forwards every keyword argument except
`fallback_func` unchanged to the primary function and, on fallback, to the
fallback function, and never interprets a `resilience_override` keyword: a
provider call supplying `resilience_override` has its retry count, backoff
delays and fallback gating determined solely by the caller's stored
`ResilienceConfig` (they are invariant in the override value and the delays
follow the stored base delay), while the override keyword itself is delivered
to the inner zero-parameter call function. -/
theorem resilientCaller_kwargs_forwarding_spec {V α : Type} :
    (∀ (cfg : ResilienceConfig) (func : Kwargs V → Nat → Except PyErr α)
        (fb : Option (Kwargs V → Except PyErr α)) (raw : Kwargs V),
      (callPy cfg func fb raw).primaryKwargs =
        List.replicate (callPy cfg func fb raw).primaryKwargs.length
          (bindCallKwargs raw) ∧
      (callPy cfg func fb raw).fallbackKwargs =
        List.replicate (callPy cfg func fb raw).fallbackKwargs.length
          (bindCallKwargs raw)) ∧
    (∀ (cfg : ResilienceConfig) (mc : Nat → Except PyErr α)
        (fbRes : Option (Except PyErr α)) (ov : V),
      (openRouterDispatch cfg mc fbRes ov).primaryKwargs =
        List.replicate (openRouterDispatch cfg mc fbRes ov).primaryKwargs.length
          [("resilience_override", ov)] ∧
      1 ≤ (openRouterDispatch cfg mc fbRes ov).primaryKwargs.length) ∧
    (∀ (cfg : ResilienceConfig) (mc : Nat → Except PyErr α)
        (fbRes : Option (Except PyErr α)) (ov ov' : V),
      (openRouterDispatch cfg mc fbRes ov).outcome =
        (openRouterDispatch cfg mc fbRes ov').outcome ∧
      (openRouterDispatch cfg mc fbRes ov).primaryKwargs.length =
        (openRouterDispatch cfg mc fbRes ov').primaryKwargs.length ∧
      (openRouterDispatch cfg mc fbRes ov).fallbackKwargs.length =
        (openRouterDispatch cfg mc fbRes ov').fallbackKwargs.length ∧
      (openRouterDispatch cfg mc fbRes ov).sleeps =
        (openRouterDispatch cfg mc fbRes ov').sleeps) ∧
    (∀ (cfg : ResilienceConfig) (mc : Nat → Except PyErr α)
        (fbRes : Option (Except PyErr α)) (ov : V),
      (openRouterDispatch cfg mc fbRes ov).sleeps =
        (List.range
            ((openRouterDispatch cfg mc fbRes ov).primaryKwargs.length - 1)).map
          (fun i => cfg.retry_base_delay * 2 ^ i)) := by
  refine ⟨?_, ?_, ?_, ?_⟩
  · intro cfg func fb raw
    exact call_kwargs_replicate cfg func fb (bindCallKwargs raw)
  · intro cfg mc fbRes ov
    exact ⟨(call_kwargs_replicate cfg (pyZeroArgFun mc)
        (fbRes.map (fun r => pyZeroArgFallback r)) [("resilience_override", ov)]).1,
      (call_sleeps_shape cfg (pyZeroArgFun mc)
        (fbRes.map (fun r => pyZeroArgFallback r)) [("resilience_override", ov)]).1⟩
  · intro cfg mc fbRes ov ov'
    apply call_trace_congr
    · funext i
      simp [pyZeroArgFun]
    · cases fbRes with
      | none => rfl
      | some r => simp [pyZeroArgFallback]
  · intro cfg mc fbRes ov
    exact (call_sleeps_shape cfg (pyZeroArgFun mc)
      (fbRes.map (fun r => pyZeroArgFallback r)) [("resilience_override", ov)]).2

/-! ## Data model (autologic/core/models.py) -/

/-- `ReasoningModule` dataclass. -/
structure ReasoningModule where
  id : String
  name : String
  description : String
  category : String
deriving DecidableEq

/-- `AdaptedModule` dataclass. -/
structure AdaptedModule where
  base : ReasoningModule
  adapted_description : String
  specific_actions : List String
deriving DecidableEq

/-- `ReasoningPlanStep` dataclass. -/
structure ReasoningPlanStep where
  step_number : Int
  module_id : String
  module_name : String
  action : String
  expected_output : String
deriving DecidableEq

/-- `ReasoningPlan` dataclass (field default `complexity="medium"`). -/
structure ReasoningPlan where
  steps : List ReasoningPlanStep
  complexity : String
deriving DecidableEq

/-- A step dictionary as consumed by `ReasoningPlan.from_dict`: every key
optional, read with `s.get(key, default)`. -/
structure StepDict where
  step_number : Option Int
  module_id : Option String
  module_name : Option String
  action : Option String
  expected_output : Option String
deriving DecidableEq

/-- A plan dictionary as produced by `ReasoningPlan.to_dict` and consumed by
`from_dict`. `steps := none` models a missing or falsy `"steps"` entry
(`data.get("steps") or []` treats both the same way). -/
structure PlanDict where
  steps : Option (List StepDict)
  estimated_complexity : Option String
  total_steps : Option Int
deriving DecidableEq

/-- `ReasoningPlanStep.to_dict`. -/
def ReasoningPlanStep.to_dict (s : ReasoningPlanStep) : StepDict :=
  ⟨some s.step_number, some s.module_id, some s.module_name, some s.action,
    some s.expected_output⟩

/-- `ReasoningPlan.to_dict`. -/
def ReasoningPlan.to_dict (p : ReasoningPlan) : PlanDict :=
  ⟨some (p.steps.map ReasoningPlanStep.to_dict), some p.complexity,
    some (p.steps.length : Int)⟩

/-- The per-step constructor call inside `ReasoningPlan.from_dict`'s list
comprehension, applied to one `enumerate` pair `(i, s)`. -/
def stepOfDict (p : Nat × StepDict) : ReasoningPlanStep :=
  { step_number := p.2.step_number.getD ((p.1 : Int) + 1)
    module_id := p.2.module_id.getD ""
    module_name := p.2.module_name.getD ""
    action := p.2.action.getD ""
    expected_output := p.2.expected_output.getD "" }

/-- `ReasoningPlan.from_dict` (models.py lines 79-92). -/
def ReasoningPlan.from_dict (data : PlanDict) : ReasoningPlan :=
  { steps := (data.steps.getD []).enum.map stepOfDict
    complexity := data.estimated_complexity.getD "medium" }

theorem enumFrom_map_stepOfDict_roundtrip :
    ∀ (l : List ReasoningPlanStep) (n : Nat),
      ((l.map ReasoningPlanStep.to_dict).enumFrom n).map stepOfDict = l := by
  intro l
  induction l with
  | nil => intro n; rfl
  | cons s t ih =>
    intro n
    simp only [List.map_cons, List.enumFrom_cons]
    rw [ih (n + 1)]
    congr 1

theorem enumFrom_map_get? {β : Type} (f : Nat × StepDict → β) :
    ∀ (l : List StepDict) (n i : Nat) (s : StepDict),
      l[i]? = some s → ((l.enumFrom n).map f)[i]? = some (f (n + i, s)) := by
  intro l
  induction l with
  | nil => intro n i s h; simp at h
  | cons a t ih =>
    intro n i s h
    cases i with
    | zero =>
      simp at h
      simp [List.enumFrom_cons, h]
    | succ i =>
      simp only [List.getElem?_cons_succ] at h
      simp only [List.enumFrom_cons, List.map_cons, List.getElem?_cons_succ]
      rw [ih (n + 1) i s h, show n + 1 + i = n + (i + 1) by omega]

/-- Claim C9: in `ReasoningPlan.from_dict`, a step lacking an explicit
`step_number` receives the contiguous 1-based index of its position in input
order, and `from_dict` composed with `to_dict` is the identity on plans, so
serialize-then-deserialize round-trips. -/
theorem reasoningPlan_roundtrip_spec :
    (∀ (data : PlanDict) (i : Nat) (s : StepDict),
      (data.steps.getD [])[i]? = some s → s.step_number = none →
      ((ReasoningPlan.from_dict data).steps.map ReasoningPlanStep.step_number)[i]? =
        some ((i : Int) + 1)) ∧
    (∀ p : ReasoningPlan, ReasoningPlan.from_dict p.to_dict = p) := by
  constructor
  · intro data i s hget hnone
    unfold ReasoningPlan.from_dict
    simp only [List.enum]
    rw [List.map_map]
    rw [enumFrom_map_get? (ReasoningPlanStep.step_number ∘ stepOfDict)
      (data.steps.getD []) 0 i s hget]
    simp [stepOfDict, hnone]
  · intro p
    unfold ReasoningPlan.from_dict ReasoningPlan.to_dict
    simp only [Option.getD_some, List.enum]
    rw [enumFrom_map_stepOfDict_roundtrip p.steps 0]

/-- Witness for C9: a two-step dictionary whose second step lacks
`step_number` gets index 2, and a concrete plan round-trips. -/
theorem reasoningPlan_roundtrip_spec_witness :
    ((ReasoningPlan.from_dict
        ⟨some [⟨some 7, some "a", some "A", some "act", some "out"⟩,
               ⟨none, some "b", some "B", some "act2", some "out2"⟩],
          some "low", none⟩).steps.map ReasoningPlanStep.step_number)[1]? =
      some ((1 : Int) + 1) ∧
    ReasoningPlan.from_dict
        (ReasoningPlan.to_dict ⟨[⟨3, "m", "M", "do", "res"⟩], "high"⟩) =
      ⟨[⟨3, "m", "M", "do", "res"⟩], "high"⟩ := by
  constructor
  · exact reasoningPlan_roundtrip_spec.1
      ⟨some [⟨some 7, some "a", some "A", some "act", some "out"⟩,
             ⟨none, some "b", some "B", some "act2", some "out2"⟩], some "low", none⟩
      1 ⟨none, some "b", some "B", some "act2", some "out2"⟩ (by decide) rfl
  · exact reasoningPlan_roundtrip_spec.2 ⟨[⟨3, "m", "M", "do", "res"⟩], "high"⟩

/-! ## Critic agent (autologic/core/critic.py) -/

/-- The float literal 0.1 (kernel-reducible rational). -/
def ratPoint1 : Rat := ⟨1, 10, by decide, by decide⟩

/-- The float literal 0.2 (kernel-reducible rational). -/
def ratPoint2 : Rat := ⟨1, 5, by decide, by decide⟩

/-- The float literal 0.8 (kernel-reducible rational). -/
def ratPoint8 : Rat := ⟨4, 5, by decide, by decide⟩

/-- The float literal 1.5 (kernel-reducible rational). -/
def ratOnePoint5 : Rat := ⟨3, 2, by decide, by decide⟩

/-- The float literal 2.5 (kernel-reducible rational). -/
def ratTwoPoint5 : Rat := ⟨5, 2, by decide, by decide⟩

/-- A single-quote character, written out so marker strings can reproduce the
source text exactly. -/
def apos : String := (Char.ofNat 39).toString

/-- `CriticEvaluation` pydantic model. -/
structure CriticEvaluation where
  score : Rat
  status : String
  reason : String
  feedback : String
deriving DecidableEq

/-- The `fake_terms` list of `CriticAgent._heuristic_check`. -/
def fake_terms : List String := ["google.physics", "import antigravity", "setgravity("]

/-- First fake term of `response_lower` found in `fake_terms`, if any. -/
def firstFakeTerm (response_lower : String) : Option String :=
  fake_terms.find? (fun term => strContains response_lower term)

/-- `CriticAgent._heuristic_check` (critic.py lines 47-83): the antigravity
hallucination rule, then the minimum-length rule; `none` means the heuristics
pass and the judge model is consulted. -/
def heuristic_check (task response : String) : Option CriticEvaluation :=
  let input_lower := strLower task
  let response_lower := strLower response
  match
    if !strContains input_lower "easter egg" &&
        !strContains input_lower "google gravity" &&
        !strContains input_lower "game" then
      firstFakeTerm response_lower
    else none
  with
  | some term =>
    some ⟨ratPoint1, "REJECT",
      "Détection heuristique: Terme suspect " ++ apos ++ term ++ apos ++
        " suggère une hallucination d" ++ apos ++ "API inexistante.",
      "Google ne possède pas d" ++ apos ++ "API publique d" ++ apos ++
        "antigravité physique. Ne pas inventer de code ou d" ++ apos ++
        "imports. Vérifie s" ++ apos ++ "il s" ++ apos ++
        "agit de simulation (MuJoCo) ou de l" ++ apos ++ "Easter Egg."⟩
  | none =>
    if (strStrip response).length < 50 then
      some ⟨ratPoint2, "REJECT", "Réponse trop courte ou vide.",
        "La réponse est insuffisante. Développe le contenu pour répondre au plan."⟩
    else none

/-- The judge model's parsed JSON reply, each key read with
`data.get(key, default)`. An `Except.error` oracle outcome covers both a
failing judge call and an unparsable reply. -/
structure JudgeRaw where
  score_h2 : Option Rat
  score : Option Rat
  status : Option String
  feedback : Option String
deriving DecidableEq

/-- `CriticAgent.evaluate` (critic.py lines 89-138). The plan argument only
feeds the judge prompt, which the `judge` oracle absorbs. -/
def CriticAgent.evaluate (task : String) (_plan : PlanDict) (response : String)
    (judge : Except PyErr JudgeRaw) : CriticEvaluation :=
  match heuristic_check task response with
  | some heuristic_result => heuristic_result
  | none =>
    match judge with
    | .ok data =>
      { score := (data.score_h2.orElse (fun _ => data.score)).getD 0
        status := data.status.getD "REJECT"
        reason := data.feedback.getD "Pas de raison fournie"
        feedback := data.feedback.getD "Refaire la réponse en suivant le plan." }
    | .error e =>
      { score := 0
        status := "ERROR"
        reason := "Crash du critique: " ++ e.msg
        feedback := "Une erreur interne est survenue lors de la validation. Vérifier le format et réessayer." }

theorem heuristic_check_status_reject (task response : String) (h : CriticEvaluation) :
    heuristic_check task response = some h → h.status = "REJECT" := by
  unfold heuristic_check
  cases hterm :
      (if !strContains (strLower task) "easter egg" &&
          !strContains (strLower task) "google gravity" &&
          !strContains (strLower task) "game" then
        firstFakeTerm (strLower response)
      else none) with
  | some term =>
    intro hh
    simp only [hterm] at hh
    cases hh
    rfl
  | none =>
    intro hh
    simp only [hterm] at hh
    by_cases hlen : (strStrip response).length < 50
    · rw [if_pos hlen] at hh
      cases hh
      rfl
    · rw [if_neg hlen] at hh
      cases hh

/-- Claim C7: if the critic's judge call fails or its reply fails to parse,
`CriticAgent.evaluate` returns score 0 with status ERROR (when the heuristic
gate passed and the judge was actually consulted), and a judge failure is
never reported as VALID. -/
theorem critic_fail_closed_spec :
    (∀ (task : String) (plan : PlanDict) (response : String) (e : PyErr),
      heuristic_check task response = none →
      CriticAgent.evaluate task plan response (.error e) =
        ⟨0, "ERROR", "Crash du critique: " ++ e.msg,
          "Une erreur interne est survenue lors de la validation. Vérifier le format et réessayer."⟩) ∧
    (∀ (task : String) (plan : PlanDict) (response : String) (e : PyErr),
      (CriticAgent.evaluate task plan response (.error e)).status ≠ "VALID") := by
  constructor
  · intro task plan response e hgate
    unfold CriticAgent.evaluate
    rw [hgate]
  · intro task plan response e
    unfold CriticAgent.evaluate
    cases hgate : heuristic_check task response with
    | some h =>
      have := heuristic_check_status_reject task response h hgate
      simp [this]
    | none => simp

/-- Witness for C7: a long, fake-term-free answer passes the gate; a failing
judge then yields score 0 / ERROR, and never VALID. -/
theorem critic_fail_closed_spec_witness :
    CriticAgent.evaluate "compute the sum" ⟨none, none, none⟩
        "The sum equals 42, computed by adding every listed term one by one."
        (.error ⟨"boom"⟩) =
      ⟨0, "ERROR", "Crash du critique: boom",
        "Une erreur interne est survenue lors de la validation. Vérifier le format et réessayer."⟩ ∧
    (CriticAgent.evaluate "compute the sum" ⟨none, none, none⟩
        "The sum equals 42, computed by adding every listed term one by one."
        (.error ⟨"boom"⟩)).status ≠ "VALID" := by
  constructor
  · exact critic_fail_closed_spec.1 "compute the sum" ⟨none, none, none⟩
      "The sum equals 42, computed by adding every listed term one by one."
      ⟨"boom"⟩ (by decide)
  · exact critic_fail_closed_spec.2 "compute the sum" ⟨none, none, none⟩
      "The sum equals 42, computed by adding every listed term one by one."
      ⟨"boom"⟩

/-! ## Engine phases (autologic/core/engine.py) -/

/-- The result of `analyze_task`'s parsed JSON: the engine only ever reads the
`"constraints"` key (a missing key behaves as an empty list) besides carrying
the analysis text. -/
structure Analysis where
  analysis : String
  constraints : List String
deriving DecidableEq

/-- `AutoLogicEngine.analyze_task`: parsed analysis on success, the
empty-constraint default on any call-and-parse failure. -/
def analyze_task (res : Except PyErr Analysis) : Analysis :=
  match res with
  | .ok a => a
  | .error _ => ⟨"Standard analysis", []⟩

/-- `analysis and analysis.get("constraints")` truthiness used by
`synthesize_output`. -/
def has_constraints : Option Analysis → Bool
  | none => false
  | some a => !a.constraints.isEmpty

/-- The fixed `fallback_ids` of `select_modules`. -/
def fallback_ids : List String :=
  ["decomposer_le_probleme", "identifier_les_contraintes", "brainstorming"]

/-- `AutoLogicEngine.select_modules` (engine.py lines 260-299): on a parsed
reply, keep the catalog modules whose id occurs in `selected_modules`
(missing key: empty list); after exhausted call-and-parse retries, fall back
to the catalog modules carrying the fixed default ids. -/
def select_modules (catalog : List ReasoningModule)
    (res : Except PyErr (List String)) : List ReasoningModule :=
  match res with
  | .ok selected_ids => catalog.filter (fun m => selected_ids.contains m.id)
  | .error _ => catalog.filter (fun m => fallback_ids.contains m.id)

/-- One entry of the parsed `adapted_modules` list: the keys `adapt_modules`
reads. A reply item with a missing key raises inside the phase's `try` and is
covered by the oracle's `Except.error`. -/
structure AdaptItem where
  id : String
  adapted_description : String
  specific_actions : List String
deriving DecidableEq

/-- `AutoLogicEngine.adapt_modules` (engine.py lines 301-354): keep the items
whose id matches a selected module, pairing them with that base module; on
failure, fall back to the unmodified descriptions with empty action lists. -/
def adapt_modules (selected : List ReasoningModule)
    (res : Except PyErr (List AdaptItem)) : List AdaptedModule :=
  match res with
  | .ok items =>
    items.filterMap (fun item =>
      (selected.find? (fun m => m.id == item.id)).map (fun base =>
        ⟨base, item.adapted_description, item.specific_actions⟩))
  | .error _ => selected.map (fun m => ⟨m, m.description, []⟩)

/-- The parsed reply of `structure_reasoning` and `restructure_plan`:
`plan_data.get("reasoning_plan", dict())`. -/
structure StructureData where
  reasoning_plan : Option PlanDict
deriving DecidableEq

/-- The empty dictionary default of `plan_data.get("reasoning_plan", ...)`. -/
def emptyPlanDict : PlanDict := ⟨none, none, none⟩

/-- `AutoLogicEngine.structure_reasoning` (engine.py lines 356-391): build the
plan from the parsed reply; on failure return the empty plan with complexity
`"unknown"`. -/
def structure_reasoning (res : Except PyErr StructureData) : ReasoningPlan :=
  match res with
  | .ok plan_data => ReasoningPlan.from_dict (plan_data.reasoning_plan.getD emptyPlanDict)
  | .error _ => ⟨[], "unknown"⟩

/-- The parsed reply of `verify_plan`, defaulting to valid on failure. -/
structure VerifyData where
  is_valid : Option Bool
  feedback : Option String
deriving DecidableEq

/-- `AutoLogicEngine.verify_plan` (engine.py lines 393-411). -/
def verify_plan (res : Except PyErr VerifyData) : VerifyData :=
  match res with
  | .ok v => v
  | .error _ => ⟨some true, some ""⟩

/-- `AutoLogicEngine.restructure_plan` (engine.py lines 413-439): a new plan
from the parsed reply, the old plan on failure. -/
def restructure_plan (old_plan : ReasoningPlan)
    (res : Except PyErr StructureData) : ReasoningPlan :=
  match res with
  | .ok plan_data => ReasoningPlan.from_dict (plan_data.reasoning_plan.getD emptyPlanDict)
  | .error _ => old_plan

/-- The `multipliers` table of `_compute_dynamic_timeout`. -/
def complexity_multipliers : List (String × Rat) :=
  [("low", 1), ("medium", ratOnePoint5), ("high", ratTwoPoint5), ("unknown", ratOnePoint5)]

/-- `AutoLogicEngine._compute_dynamic_timeout` (engine.py lines 127-150):
`int(base_timeout * mult + extra)` with `extra = max(0, steps - 5) * 10`. -/
def compute_dynamic_timeout (base_timeout : Nat) (complexity : String)
    (steps_count : Nat) : Int :=
  let mult := (complexity_multipliers.lookup (strLower complexity)).getD ratOnePoint5
  let extra_steps := (steps_count - 5) * 10
  Int.floor ((base_timeout : Rat) * mult + (extra_steps : Rat))

/-- The `confusion_markers` of `_is_confused_output`. -/
def confusion_markers : List String :=
  ["je n" ++ apos ++ "ai pas de contenu", "merci de fournir", "élément requis",
   "je comprends que vous souhaitez", "je ne peux pas", "veuillez préciser",
   "information manquante"]

/-- `AutoLogicEngine._is_confused_output` (engine.py lines 152-173). -/
def is_confused_output (output : String) : Bool :=
  let output_lower := strLower output
  confusion_markers.any (fun marker => strContains output_lower marker)

/-- The audit reply of one `audit_final` pass, every key read with
`audit_data.get(key, default)`. -/
structure AuditRaw where
  structural_sufficiency_score : Option Rat
  is_sufficient : Option Bool
  required_changes_type : Option String
  missing_critical_elements : Option (List String)
  improvement_instructions : Option String
deriving DecidableEq

/-- Oracles for every model interaction of one engine cycle. Each oracle is a
function of the data the corresponding source call depends on (attempt or
audit-pass index, current plan, feedback, current output), so any behavior of
the external models is representable. -/
structure EngineEnv where
  /-- parse outcome of the ANALYZE call. -/
  analyzeF : Except PyErr Analysis
  /-- parse outcome of the SELECT call: the `selected_modules` id list. -/
  selectF : Except PyErr (List String)
  /-- parse outcome of the ADAPT call: the `adapted_modules` items. -/
  adaptF : Except PyErr (List AdaptItem)
  /-- parse outcome of the STRUCTURE call. -/
  structureF : Except PyErr StructureData
  /-- parse outcome of the VERIFY call. -/
  verifyF : Except PyErr VerifyData
  /-- worker reply of EXECUTE, per (attempt, plan, previous feedback). -/
  execF : Nat → ReasoningPlan → String → String
  /-- judge reply for the critic, per (attempt, plan, candidate). -/
  judgeF : Nat → ReasoningPlan → String → Except PyErr JudgeRaw
  /-- parse outcome of a RESTRUCTURE call, per (attempt, plan, feedback). -/
  restructF : Nat → ReasoningPlan → String → Except PyErr StructureData
  /-- synthesis reply, per pre-synthesis candidate. -/
  synthF : String → String
  /-- wall-clock `time.time() - start_time` at the n-th top-of-loop check. -/
  elapsedF : Nat → Rat
  /-- audit reply of the n-th audit pass on the current output. -/
  auditF : Nat → String → Except PyErr AuditRaw
  /-- refinement reply of the n-th audit pass on the current output. -/
  refineF : Nat → String → Except PyErr String

/-- The audit loop of `synthesize_output` (engine.py lines 522-605).
`checkIdx` counts loop entries (for the clock), `iteration` is the source's
refinement counter. Every branch returns an output; a timeout or an audit
exception never raises. -/
def auditLoop (env : EngineEnv) (timeout : Int) (maxIter : Nat)
    (checkIdx iteration : Nat) (current : String) : String :=
  if (timeout : Rat) < env.elapsedF checkIdx then current
  else if h : maxIter ≤ iteration then current
  else
    match env.auditF checkIdx current with
    | .error _ => current
    | .ok audit_data =>
      let score := audit_data.structural_sufficiency_score.getD 0
      let is_sufficient := audit_data.is_sufficient.getD false
      let change_type := audit_data.required_changes_type.getD "MAJOR"
      if is_sufficient || (90 : Rat) ≤ score then current
      else if change_type == "MINOR" || change_type == "NONE" then current
      else
        match env.refineF checkIdx current with
        | .error _ => current
        | .ok refined_output =>
          let next := if !is_confused_output refined_output then refined_output else current
          auditLoop env timeout maxIter (checkIdx + 1) (iteration + 1) next
termination_by maxIter - iteration
decreasing_by
  simp only [not_le] at h
  omega

/-- The pre-audit candidate of `synthesize_output`: the synthesis reply, or
the raw output when the synthesis is a confused answer. -/
def synthesisCandidate (env : EngineEnv) (raw_output : String) : String :=
  let current := env.synthF raw_output
  if is_confused_output current then raw_output else current

/-- `AutoLogicEngine.synthesize_output` (engine.py lines 464-605): synthesis,
confusion fallback, then - only when constraints were extracted - the
time-boxed audit loop under the dynamically computed timeout. -/
def synthesize_output (env : EngineEnv) (raw_output : String)
    (analysis : Option Analysis) (audit_timeout : Nat)
    (audit_max_retries : Nat) (plan_complexity : String)
    (plan_steps_count : Nat) : String :=
  let effective_timeout :=
    compute_dynamic_timeout audit_timeout plan_complexity plan_steps_count
  let current_output := synthesisCandidate env raw_output
  if !has_constraints analysis then current_output
  else auditLoop env effective_timeout audit_max_retries 0 0 current_output

/-- The worker's reply in one EXECUTE phase. -/
def respOf (env : EngineEnv) (attempt : Nat) (plan : ReasoningPlan)
    (feedback : String) : String :=
  env.execF attempt plan feedback

/-- The critic evaluation the engine obtains on one attempt:
`critic_agent.evaluate(task, current_plan.to_dict(), current_response)`. -/
def evalOf (env : EngineEnv) (task : String) (attempt : Nat)
    (plan : ReasoningPlan) (feedback : String) : CriticEvaluation :=
  CriticAgent.evaluate task plan.to_dict (respOf env attempt plan feedback)
    (env.judgeF attempt plan (respOf env attempt plan feedback))

/-- The keyword test of the double-backtrack trigger:
`any(kw in evaluation.reason.lower() for kw in [...])`. -/
def plan_deficiency_signal (reason : String) : Bool :=
  ["plan", "étape", "manquante", "structure"].any
    (fun kw => strContains (strLower reason) kw)

/-- One EXECUTE record: the plan and previous feedback that fed the worker. -/
structure ExecRec where
  plan : ReasoningPlan
  feedback : String
deriving DecidableEq

/-- How the execute/critique loop of `execute_with_critic` ended. -/
inductive CriticLoopOut where
  /-- some attempt scored at least 0.8; the cycle proceeds to SYNTHESIZE with
  this response and `attempts = attempt + 1`. -/
  | validated (attempt : Nat) (response : String) (evaluation : CriticEvaluation)
      (plan : ReasoningPlan)
  /-- every attempt scored below 0.8; the final response, evaluation and plan
  at loop exit. -/
  | rejected (response : String) (evaluation : CriticEvaluation)
      (plan : ReasoningPlan)
deriving DecidableEq

/-- The `for attempt in range(max_retries)` loop of `execute_with_critic`
(engine.py lines 628-700). `rest` is the number of loop iterations remaining
after the current one; on entry from the top, `attempt = 0` and
`rest = max_retries - 1`, so the Python guard `attempt < max_retries - 1` of
the double-backtrack holds exactly when `rest > 0`. Returns the list of
EXECUTE records (plan and feedback of each execution, in order) and the loop
outcome. -/
def criticLoop (env : EngineEnv) (task : String)
    (attempt : Nat) (rest : Nat) (current_plan : ReasoningPlan)
    (feedback : String) : List ExecRec × CriticLoopOut :=
  let response := respOf env attempt current_plan feedback
  let evaluation := evalOf env task attempt current_plan feedback
  if ratPoint8 ≤ evaluation.score then
    ([⟨current_plan, feedback⟩], .validated attempt response evaluation current_plan)
  else
    match rest with
    | 0 => ([⟨current_plan, feedback⟩], .rejected response evaluation current_plan)
    | rest' + 1 =>
      let feedback' := evaluation.feedback
      let next_plan :=
        if plan_deficiency_signal evaluation.reason then
          let new_plan :=
            restructure_plan current_plan (env.restructF attempt current_plan feedback')
          if !new_plan.steps.isEmpty then new_plan else current_plan
        else current_plan
      let (trace, out) := criticLoop env task (attempt + 1) rest' next_plan feedback'
      (⟨current_plan, feedback⟩ :: trace, out)

/-- The dictionary returned by `execute_with_critic` and so by
`run_full_cycle`. An `Option` field models the presence of the corresponding
key: the source's validated return carries `"attempts"` but no
`"failed_validation"`, and the exhausted return carries `"failed_validation"`
but no `"attempts"`. -/
structure CycleResultDict where
  task : String
  plan : PlanDict
  final_output : String
  critic_score : Rat
  attempts : Option Nat
  failed_validation : Option Bool
  reasoning_modes : List String
deriving DecidableEq

/-- The result dictionary `execute_with_critic` builds once its loop has run
at least one iteration, from the loop outcome (engine.py lines 663-670 for
the validated return, 702-725 for the exhausted return). -/
def criticResultDict (env : EngineEnv) (task : String)
    (out : List ExecRec × CriticLoopOut) (analysis : Option Analysis)
    (audit_timeout : Nat) (audit_max_retries : Nat) (modes : List String) :
    CycleResultDict :=
  match out with
  | (_, .validated attempt response evaluation current_plan) =>
    let final_output := synthesize_output env response analysis audit_timeout
      audit_max_retries current_plan.complexity current_plan.steps.length
    { task := task, plan := current_plan.to_dict,
      final_output := final_output, critic_score := evaluation.score,
      attempts := some (attempt + 1), failed_validation := none,
      reasoning_modes := modes }
  | (_, .rejected response evaluation current_plan) =>
    let final_output := synthesize_output env response analysis audit_timeout
      audit_max_retries current_plan.complexity current_plan.steps.length
    { task := task, plan := current_plan.to_dict,
      final_output := final_output ++ "\n\n[NOTE: Score H2: " ++
        toString evaluation.score ++ "]",
      critic_score := evaluation.score, attempts := none,
      failed_validation := some true, reasoning_modes := modes }

/-- `AutoLogicEngine.execute_with_critic` (engine.py lines 607-725). With
`max_retries = 0` the source's loop body never runs and the return statement
raises `NameError` on the unbound `evaluation`; this is modeled as `none`. -/
def execute_with_critic (env : EngineEnv) (task : String) (plan : ReasoningPlan)
    (max_retries : Nat) (analysis : Option Analysis) (audit_timeout : Nat)
    (audit_max_retries : Nat) (modes : List String) : Option CycleResultDict :=
  match max_retries with
  | 0 => none
  | m + 1 =>
    some (criticResultDict env task (criticLoop env task 0 m plan "")
      analysis audit_timeout audit_max_retries modes)

/-- A full-cycle result: the `{"error": ...}` dictionary of a hard stop, or a
normal result dictionary. -/
inductive CycleOutcome where
  | errorDict (msg : String)
  | ok (d : CycleResultDict)
deriving DecidableEq

/-- `AutoLogicEngine.run_full_cycle` (engine.py lines 727-781): analyze,
select (abort when empty), adapt (abort when empty), structure (abort when
the plan has no steps), verify (result only logged), then
`execute_with_critic` with its default `max_retries = 3`. -/
def run_full_cycle (catalog : List ReasoningModule) (env : EngineEnv)
    (task : String) (audit_timeout : Nat) (audit_max_retries : Nat) :
    CycleOutcome :=
  let analysis := analyze_task env.analyzeF
  let selected := select_modules catalog env.selectF
  if selected.isEmpty then .errorDict "Failed to select modules"
  else
    let adapted := adapt_modules selected env.adaptF
    if adapted.isEmpty then .errorDict "Failed to adapt modules"
    else
      let plan := structure_reasoning env.structureF
      if plan.steps.isEmpty then .errorDict "Failed to structure plan"
      else
        let _verification := verify_plan env.verifyF
        .ok ((execute_with_critic env task plan 3 (some analysis) audit_timeout
          audit_max_retries (selected.map (fun m => m.name))).get (by rfl))

/-! ## Claims about the full cycle -/

/-- A default oracle environment where every model call fails; concrete
scenarios override single fields. -/
def baseEnv : EngineEnv where
  analyzeF := .error ⟨"analysis down"⟩
  selectF := .error ⟨"selection down"⟩
  adaptF := .error ⟨"adaptation down"⟩
  structureF := .error ⟨"structure down"⟩
  verifyF := .error ⟨"verify down"⟩
  execF := fun _ _ _ => ""
  judgeF := fun _ _ _ => .error ⟨"judge down"⟩
  restructF := fun _ _ _ => .error ⟨"restructure down"⟩
  synthF := fun _ => ""
  elapsedF := fun _ => 0
  auditF := fun _ _ => .error ⟨"audit down"⟩
  refineF := fun _ _ => .error ⟨"refine down"⟩

/-- A one-module catalog. -/
def catalogOne : List ReasoningModule :=
  [⟨"m1", "Module One", "first module", "general"⟩]

/-- A scenario where SELECT succeeds with a non-empty choice, STRUCTURE would
succeed with a one-step plan, but the parsed ADAPT reply matches no selected
module, leaving `adapted` empty. -/
def envAdaptEmpty : EngineEnv :=
  { baseEnv with
    analyzeF := .ok ⟨"std", []⟩
    selectF := .ok ["m1"]
    adaptF := .ok [⟨"other_id", "adapted text", []⟩]
    structureF := .ok ⟨some ⟨some [⟨some 1, some "m1", some "Module One",
      some "do the step", some "a result"⟩], some "low", none⟩⟩ }

/-- Counterexample to C3: a degraded ADAPT outcome (parsed reply matching no
selected module) aborts the full cycle with an error dictionary even though
SELECT returned a non-empty list and STRUCTURE would have produced a
non-empty plan. -/
theorem cycle_abort_counterexample :
    run_full_cycle catalogOne envAdaptEmpty "task" 30 3 =
      .errorDict "Failed to adapt modules" ∧
    (select_modules catalogOne envAdaptEmpty.selectF).isEmpty = false ∧
    (structure_reasoning envAdaptEmpty.structureF).steps.isEmpty = false := by
  refine ⟨?_, by decide, by decide⟩
  decide

/-- Claim C3 (amended): a full cycle returns an `error` dictionary exactly
when SELECT yields an empty strategy list, or ADAPT yields an empty adapted
list, or STRUCTURE yields a plan with no steps; every other degraded phase
outcome (analysis, verification, critique, audit failures) still lets the
cycle complete with a result. -/
theorem cycle_abort_spec (catalog : List ReasoningModule) (env : EngineEnv)
    (task : String) (audit_timeout audit_max_retries : Nat) :
    (∃ msg, run_full_cycle catalog env task audit_timeout audit_max_retries =
        .errorDict msg) ↔
      ((select_modules catalog env.selectF).isEmpty = true ∨
        (adapt_modules (select_modules catalog env.selectF) env.adaptF).isEmpty = true ∨
        (structure_reasoning env.structureF).steps.isEmpty = true) := by
  unfold run_full_cycle
  by_cases h1 : (select_modules catalog env.selectF).isEmpty
  · simp [h1]
  · by_cases h2 : (adapt_modules (select_modules catalog env.selectF) env.adaptF).isEmpty
    · simp [h1, h2]
    · by_cases h3 : (structure_reasoning env.structureF).steps.isEmpty
      · simp [h1, h2, h3]
      · simp [h1, h2, h3]

/-- Counterexample to C8: with the zero-strategy catalog reached when the
catalog file is absent, the SELECT fallback after exhausted retries is empty,
and the cycle aborts at SELECT instead of proceeding. -/
theorem select_fallback_counterexample :
    select_modules [] (.error ⟨"connection error"⟩) = [] ∧
    run_full_cycle [] { baseEnv with selectF := .error ⟨"connection error"⟩ }
        "task" 30 3 = .errorDict "Failed to select modules" := by
  exact ⟨by decide, by decide⟩

/-- Claim C8 (amended): when SELECT's call-and-parse fails on every retry,
`select_modules` returns the catalog modules carrying the fixed default ids;
whenever the loaded catalog holds at least one module with a default id this
fallback is non-empty, so downstream phases have input — but with an empty
catalog the fallback is empty too and the cycle aborts at SELECT. -/
theorem select_fallback_spec :
    (∀ (catalog : List ReasoningModule) (e : PyErr),
      select_modules catalog (.error e) =
        catalog.filter (fun m => fallback_ids.contains m.id)) ∧
    (∀ (catalog : List ReasoningModule) (e : PyErr),
      (∃ m ∈ catalog, fallback_ids.contains m.id = true) →
      (select_modules catalog (.error e)).isEmpty = false) ∧
    (∀ (env : EngineEnv) (task : String) (audit_timeout audit_max_retries : Nat),
      run_full_cycle [] env task audit_timeout audit_max_retries =
        .errorDict "Failed to select modules") := by
  refine ⟨fun catalog e => rfl, ?_, ?_⟩
  · intro catalog e ⟨m, hm, hid⟩
    have hmem : m ∈ catalog.filter (fun m => fallback_ids.contains m.id) :=
      List.mem_filter.mpr ⟨hm, hid⟩
    unfold select_modules
    cases hfe : (catalog.filter (fun m => fallback_ids.contains m.id)).isEmpty with
    | false => rfl
    | true =>
      rw [List.isEmpty_iff] at hfe
      rw [hfe] at hmem
      cases hmem
  · intro env task audit_timeout audit_max_retries
    unfold run_full_cycle select_modules
    cases env.selectF with
    | ok ids => rfl
    | error e => rfl

/-- Witness for C8: with a catalog holding the `brainstorming` default id,
the post-retry fallback returns exactly that module and is non-empty. -/
theorem select_fallback_spec_witness :
    select_modules [⟨"brainstorming", "Brainstorming", "gen", "creative"⟩]
        (.error ⟨"judge call failed"⟩) =
      List.filter (fun m => fallback_ids.contains m.id)
        [⟨"brainstorming", "Brainstorming", "gen", "creative"⟩] ∧
    (select_modules [⟨"brainstorming", "Brainstorming", "gen", "creative"⟩]
        (.error ⟨"judge call failed"⟩)).isEmpty = false := by
  constructor
  · exact select_fallback_spec.1 [⟨"brainstorming", "Brainstorming", "gen", "creative"⟩]
      ⟨"judge call failed"⟩
  · exact select_fallback_spec.2.1 [⟨"brainstorming", "Brainstorming", "gen", "creative"⟩]
      ⟨"judge call failed"⟩
      ⟨⟨"brainstorming", "Brainstorming", "gen", "creative"⟩, by decide, by decide⟩

/-! ## Claim C4: the execute/critique loop -/

/-- The plan the next iteration runs with after a rejection, as computed in
engine.py lines 676-700. -/
def backtrackPlan (env : EngineEnv) (task : String) (attempt : Nat)
    (plan : ReasoningPlan) (fb : String) : ReasoningPlan :=
  if plan_deficiency_signal (evalOf env task attempt plan fb).reason then
    let new_plan :=
      restructure_plan plan
        (env.restructF attempt plan (evalOf env task attempt plan fb).feedback)
    if !new_plan.steps.isEmpty then new_plan else plan
  else plan

theorem criticLoop_validated_step (env : EngineEnv) (task : String)
    (attempt rest : Nat) (plan : ReasoningPlan) (fb : String)
    (hscore : ratPoint8 ≤ (evalOf env task attempt plan fb).score) :
    criticLoop env task attempt rest plan fb =
      ([⟨plan, fb⟩], .validated attempt (respOf env attempt plan fb)
        (evalOf env task attempt plan fb) plan) := by
  unfold criticLoop
  rw [if_pos hscore]

theorem criticLoop_reject_step (env : EngineEnv) (task : String)
    (attempt rest' : Nat) (plan : ReasoningPlan) (fb : String)
    (hscore : (evalOf env task attempt plan fb).score < ratPoint8) :
    criticLoop env task attempt (rest' + 1) plan fb =
      (⟨plan, fb⟩ ::
        (criticLoop env task (attempt + 1) rest'
          (backtrackPlan env task attempt plan fb)
          (evalOf env task attempt plan fb).feedback).1,
        (criticLoop env task (attempt + 1) rest'
          (backtrackPlan env task attempt plan fb)
          (evalOf env task attempt plan fb).feedback).2) := by
  conv_lhs => unfold criticLoop
  rw [if_neg (not_le.mpr hscore)]
  unfold backtrackPlan
  rcases hcl : criticLoop env task (attempt + 1) rest'
      (if plan_deficiency_signal (evalOf env task attempt plan fb).reason then
        let new_plan :=
          restructure_plan plan
            (env.restructF attempt plan (evalOf env task attempt plan fb).feedback)
        if !new_plan.steps.isEmpty then new_plan else plan
      else plan)
      (evalOf env task attempt plan fb).feedback with ⟨tr, out⟩
  simp only [hcl]

/-- Claim C4 (amended): in the execute/critique loop, a critic score of at
least 0.8 on an iteration ends the loop validated with that iteration's
response, and the returned result routes to SYNTHESIZE recording
`attempts = k` for 1-based iteration k; a lower score inspects the rejection
reason for plan-deficiency keywords, and when such a signal is present with
retries remaining the engine regenerates the plan from the accumulated
feedback and re-executes with the regenerated plan provided it is non-empty —
an empty regenerated plan, and likewise an absent signal, re-executes with
the unchanged plan and the new feedback. -/
theorem execute_critic_backtrack_spec (env : EngineEnv) (task : String) :
    (∀ (attempt rest : Nat) (plan : ReasoningPlan) (fb : String),
      ratPoint8 ≤ (evalOf env task attempt plan fb).score →
      criticLoop env task attempt rest plan fb =
        ([⟨plan, fb⟩], .validated attempt (respOf env attempt plan fb)
          (evalOf env task attempt plan fb) plan)) ∧
    (∀ (m : Nat) (plan p' : ReasoningPlan) (k : Nat) (resp : String)
        (ev : CriticEvaluation) (analysis : Option Analysis)
        (ta amr : Nat) (modes : List String),
      (criticLoop env task 0 m plan "").2 = .validated k resp ev p' →
      execute_with_critic env task plan (m + 1) analysis ta amr modes =
        some { task := task, plan := p'.to_dict,
               final_output := synthesize_output env resp analysis ta amr
                 p'.complexity p'.steps.length,
               critic_score := ev.score, attempts := some (k + 1),
               failed_validation := none, reasoning_modes := modes }) ∧
    (∀ (attempt rest' : Nat) (plan : ReasoningPlan) (fb : String),
      (evalOf env task attempt plan fb).score < ratPoint8 →
      plan_deficiency_signal (evalOf env task attempt plan fb).reason = true →
      (restructure_plan plan
        (env.restructF attempt plan
          (evalOf env task attempt plan fb).feedback)).steps.isEmpty = false →
      backtrackPlan env task attempt plan fb =
        restructure_plan plan
          (env.restructF attempt plan (evalOf env task attempt plan fb).feedback) ∧
      ((criticLoop env task attempt (rest' + 1) plan fb).1)[1]? =
        some ⟨restructure_plan plan
            (env.restructF attempt plan (evalOf env task attempt plan fb).feedback),
          (evalOf env task attempt plan fb).feedback⟩) ∧
    (∀ (attempt rest' : Nat) (plan : ReasoningPlan) (fb : String),
      (evalOf env task attempt plan fb).score < ratPoint8 →
      (plan_deficiency_signal (evalOf env task attempt plan fb).reason = false ∨
        (restructure_plan plan
          (env.restructF attempt plan
            (evalOf env task attempt plan fb).feedback)).steps.isEmpty = true) →
      ((criticLoop env task attempt (rest' + 1) plan fb).1)[1]? =
        some ⟨plan, (evalOf env task attempt plan fb).feedback⟩) := by
  have hhead : ∀ (attempt rest : Nat) (plan : ReasoningPlan) (fb : String),
      ((criticLoop env task attempt rest plan fb).1)[0]? = some ⟨plan, fb⟩ := by
    intro attempt rest plan fb
    unfold criticLoop
    by_cases hs : ratPoint8 ≤ (evalOf env task attempt plan fb).score
    · rw [if_pos hs]
      rfl
    · rw [if_neg hs]
      cases rest with
      | zero => rfl
      | succ rest' =>
        rcases hcl : criticLoop env task (attempt + 1) rest'
            (if plan_deficiency_signal (evalOf env task attempt plan fb).reason then
              let new_plan :=
                restructure_plan plan
                  (env.restructF attempt plan (evalOf env task attempt plan fb).feedback)
              if !new_plan.steps.isEmpty then new_plan else plan
            else plan)
            (evalOf env task attempt plan fb).feedback with ⟨tr, out⟩
        simp only [hcl]
        simp
  refine ⟨criticLoop_validated_step env task, ?_, ?_, ?_⟩
  · intro m plan p' k resp ev analysis ta amr modes hout
    unfold execute_with_critic
    rcases hcl : criticLoop env task 0 m plan "" with ⟨tr, out⟩
    rw [hcl] at hout
    simp only at hout
    simp only [hcl, hout]
    rfl
  · intro attempt rest' plan fb hscore hsig hne
    have hbp : backtrackPlan env task attempt plan fb =
        restructure_plan plan
          (env.restructF attempt plan (evalOf env task attempt plan fb).feedback) := by
      unfold backtrackPlan
      rw [if_pos hsig]
      simp only [hne, Bool.not_false, if_true]
    refine ⟨hbp, ?_⟩
    rw [criticLoop_reject_step env task attempt rest' plan fb hscore]
    simp only [List.getElem?_cons_succ]
    rw [← hbp]
    exact hhead (attempt + 1) rest' _ _
  · intro attempt rest' plan fb hscore hcase
    have hbp : backtrackPlan env task attempt plan fb = plan := by
      unfold backtrackPlan
      rcases hcase with hsig | hne
      · rw [if_neg (by rw [hsig]; exact Bool.false_ne_true)]
      · by_cases hsig : plan_deficiency_signal (evalOf env task attempt plan fb).reason = true
        · rw [if_pos hsig]
          simp only [hne, Bool.not_true, Bool.false_eq_true, if_false]
        · rw [if_neg hsig]
    rw [criticLoop_reject_step env task attempt rest' plan fb hscore]
    simp only [List.getElem?_cons_succ]
    rw [hbp]
    exact hhead (attempt + 1) rest' _ _

/-- A one-step plan used by the execute/critique scenarios. -/
def planOne : ReasoningPlan := ⟨[⟨1, "m1", "Module One", "act", "out"⟩], "low"⟩

/-- A scenario whose critic rejects with a plan-deficiency reason while every
restructuring attempt parses to an empty `reasoning_plan`. -/
def envRestructEmpty : EngineEnv :=
  { baseEnv with
    execF := fun _ _ _ => "The answer is forty two because the question asked for it."
    judgeF := fun _ _ _ =>
      .ok ⟨some ⟨2, 5, by decide, by decide⟩, none, some "REJECT", some "le plan manque une étape"⟩
    restructF := fun _ _ _ => .ok ⟨some emptyPlanDict⟩ }

/-- The same scenario with a restructuring that parses to a non-empty plan. -/
def envRestructGood : EngineEnv :=
  { envRestructEmpty with
    restructF := fun _ _ _ => .ok ⟨some ⟨some [⟨some 1, some "m2",
      some "Module Two", some "new act", some "new out"⟩], some "medium", none⟩⟩ }

/-- A scenario whose critic validates the first attempt with score 0.95. -/
def envHighScore : EngineEnv :=
  { envRestructEmpty with
    judgeF := fun _ _ _ => .ok ⟨some ⟨19, 20, by decide, by decide⟩, none, some "VALID", some "ok"⟩ }

/-- Counterexample to C4: the critic scores 0.4 with a plan-deficiency reason
and retries remain, the regenerated plan parses empty, and the next EXECUTE
runs with the previous plan — not with the regenerated one, contrary to the
claim that the loop re-executes with the new plan. -/
theorem execute_critic_backtrack_counterexample :
    (evalOf envRestructEmpty "t" 0 planOne "").score < ratPoint8 ∧
    plan_deficiency_signal (evalOf envRestructEmpty "t" 0 planOne "").reason = true ∧
    restructure_plan planOne (envRestructEmpty.restructF 0 planOne
        (evalOf envRestructEmpty "t" 0 planOne "").feedback) = ⟨[], "medium"⟩ ∧
    ((criticLoop envRestructEmpty "t" 0 2 planOne "").1)[1]? =
      some ⟨planOne, (evalOf envRestructEmpty "t" 0 planOne "").feedback⟩ ∧
    planOne ≠ ⟨[], "medium"⟩ := by
  exact ⟨by decide, by decide, by decide, by decide, by decide⟩

/-- Witness for C4: each branch of the loop contract applied at a concrete
scenario — validation with score 0.95 at attempt 1, the recorded
`attempts = 1`, a re-execution with the regenerated plan when it is
non-empty, and a re-execution with the unchanged plan when the regenerated
plan is empty. -/
theorem execute_critic_backtrack_spec_witness :
    criticLoop envHighScore "t" 0 2 planOne "" =
      ([⟨planOne, ""⟩], .validated 0 (respOf envHighScore 0 planOne "")
        (evalOf envHighScore "t" 0 planOne "") planOne) ∧
    execute_with_critic envHighScore "t" planOne 3 none 30 3 [] =
      some { task := "t", plan := planOne.to_dict,
             final_output := synthesize_output envHighScore
               (respOf envHighScore 0 planOne "") none 30 3
               planOne.complexity planOne.steps.length,
             critic_score := (evalOf envHighScore "t" 0 planOne "").score,
             attempts := some 1, failed_validation := none,
             reasoning_modes := [] } ∧
    ((criticLoop envRestructGood "t" 0 2 planOne "").1)[1]? =
      some ⟨restructure_plan planOne (envRestructGood.restructF 0 planOne
          (evalOf envRestructGood "t" 0 planOne "").feedback),
        (evalOf envRestructGood "t" 0 planOne "").feedback⟩ ∧
    ((criticLoop envRestructEmpty "t" 0 2 planOne "").1)[1]? =
      some ⟨planOne, (evalOf envRestructEmpty "t" 0 planOne "").feedback⟩ := by
  refine ⟨?_, ?_, ?_, ?_⟩
  · exact (execute_critic_backtrack_spec envHighScore "t").1 0 2 planOne ""
      (by decide)
  · exact (execute_critic_backtrack_spec envHighScore "t").2.1 2 planOne planOne 0
      (respOf envHighScore 0 planOne "") (evalOf envHighScore "t" 0 planOne "")
      none 30 3 [] (by decide)
  · exact ((execute_critic_backtrack_spec envRestructGood "t").2.2.1 0 1 planOne ""
      (by decide) (by decide) (by decide)).2
  · exact (execute_critic_backtrack_spec envRestructEmpty "t").2.2.2 0 1 planOne ""
      (by decide) (Or.inr (by decide))

/-! ## Claim C5: result keys and exhaustion behavior -/

theorem criticLoop_all_low (env : EngineEnv) (task : String)
    (hall : ∀ (a : Nat) (p : ReasoningPlan) (fb : String),
      (evalOf env task a p fb).score < ratPoint8) :
    ∀ (rest attempt : Nat) (plan : ReasoningPlan) (fb : String),
      ∃ resp ev p', (criticLoop env task attempt rest plan fb).2 =
        .rejected resp ev p' ∧ ev.score < ratPoint8 := by
  intro rest
  induction rest with
  | zero =>
    intro attempt plan fb
    refine ⟨respOf env attempt plan fb, evalOf env task attempt plan fb, plan,
      ?_, hall attempt plan fb⟩
    unfold criticLoop
    rw [if_neg (not_le.mpr (hall attempt plan fb))]
  | succ rest ih =>
    intro attempt plan fb
    obtain ⟨resp, ev, p', hout, hlow⟩ := ih (attempt + 1)
      (backtrackPlan env task attempt plan fb)
      (evalOf env task attempt plan fb).feedback
    refine ⟨resp, ev, p', ?_, hlow⟩
    rw [criticLoop_reject_step env task attempt rest plan fb (hall attempt plan fb)]
    exact hout

/-- Claim C5 (amended): every result of `execute_with_critic` carries the
task, plan, final output, critic score and reasoning modes, but the
`attempts` key is present exactly on the validated path; when every critique
attempt scores below 0.8, the engine still proceeds to SYNTHESIZE with the
last candidate and returns a result whose output is annotated with the final
critic score, carrying `failed_validation` in place of `attempts`. -/
theorem cycle_exhaustion_spec (env : EngineEnv) (task : String) :
    (∀ (m : Nat) (plan : ReasoningPlan) (analysis : Option Analysis)
        (ta amr : Nat) (modes : List String) (d : CycleResultDict),
      execute_with_critic env task plan (m + 1) analysis ta amr modes = some d →
      d.task = task ∧ d.reasoning_modes = modes ∧
      (d.attempts.isSome ↔ d.failed_validation = none)) ∧
    (∀ (m : Nat) (plan : ReasoningPlan) (analysis : Option Analysis)
        (ta amr : Nat) (modes : List String),
      (∀ (a : Nat) (p : ReasoningPlan) (fb : String),
        (evalOf env task a p fb).score < ratPoint8) →
      ∃ (resp : String) (ev : CriticEvaluation) (p' : ReasoningPlan),
        execute_with_critic env task plan (m + 1) analysis ta amr modes =
          some { task := task, plan := p'.to_dict,
                 final_output := synthesize_output env resp analysis ta amr
                     p'.complexity p'.steps.length ++
                   "\n\n[NOTE: Score H2: " ++ toString ev.score ++ "]",
                 critic_score := ev.score, attempts := none,
                 failed_validation := some true, reasoning_modes := modes } ∧
        ev.score < ratPoint8) := by
  constructor
  · intro m plan analysis ta amr modes d hd
    unfold execute_with_critic at hd
    have hd' : some (criticResultDict env task (criticLoop env task 0 m plan "")
        analysis ta amr modes) = some d := hd
    rcases hcl : criticLoop env task 0 m plan "" with ⟨tr, out⟩
    rw [hcl] at hd'
    simp only [Option.some.injEq] at hd'
    subst hd'
    cases out with
    | validated k resp ev p' => simp [criticResultDict]
    | rejected resp ev p' => simp [criticResultDict]
  · intro m plan analysis ta amr modes hall
    obtain ⟨resp, ev, p', hout, hlow⟩ :=
      criticLoop_all_low env task hall m 0 plan ""
    refine ⟨resp, ev, p', ?_, hlow⟩
    unfold execute_with_critic
    rcases hcl : criticLoop env task 0 m plan "" with ⟨tr, out⟩
    rw [hcl] at hout
    simp only at hout
    simp only [hcl, hout]
    rfl

/-- A scenario that reaches the execute/critique loop with every attempt
rejected: the worker's candidate is always shorter than the critic's minimum
length. -/
def envAllLow : EngineEnv :=
  { baseEnv with
    analyzeF := .ok ⟨"std", []⟩
    selectF := .ok ["m1"]
    adaptF := .ok [⟨"m1", "adapted text", []⟩]
    structureF := .ok ⟨some ⟨some [⟨some 1, some "m1", some "Module One",
      some "do the step", some "a result"⟩], some "low", none⟩⟩
    execF := fun _ _ _ => "too short"
    synthF := fun s => s }

/-- Tests whether a full-cycle outcome is a non-error result that lacks the
`attempts` key. -/
def lacksAttemptsKey : CycleOutcome → Bool
  | .ok d => d.attempts.isNone
  | .errorDict _ => false

/-- Counterexample to C5: a full cycle whose three critique attempts all
score below 0.8 returns a non-error result without the `attempts` key. -/
theorem cycle_exhaustion_counterexample :
    lacksAttemptsKey (run_full_cycle catalogOne envAllLow "task" 30 3) = true := by
  decide

/-- Witness for C5: the amended contract applied to the all-rejected
scenario. -/
theorem cycle_exhaustion_spec_witness :
    ((criticResultDict envAllLow "task" (criticLoop envAllLow "task" 0 2 planOne "")
        none 30 3 []).task = "task" ∧
      (criticResultDict envAllLow "task" (criticLoop envAllLow "task" 0 2 planOne "")
        none 30 3 []).reasoning_modes = [] ∧
      ((criticResultDict envAllLow "task" (criticLoop envAllLow "task" 0 2 planOne "")
        none 30 3 []).attempts.isSome ↔
        (criticResultDict envAllLow "task" (criticLoop envAllLow "task" 0 2 planOne "")
          none 30 3 []).failed_validation = none)) ∧
    (∃ (resp : String) (ev : CriticEvaluation) (p' : ReasoningPlan),
      execute_with_critic envAllLow "task" planOne 3 none 30 3 [] =
        some { task := "task", plan := p'.to_dict,
               final_output := synthesize_output envAllLow resp none 30 3
                   p'.complexity p'.steps.length ++
                 "\n\n[NOTE: Score H2: " ++ toString ev.score ++ "]",
               critic_score := ev.score, attempts := none,
               failed_validation := some true, reasoning_modes := [] } ∧
      ev.score < ratPoint8) := by
  have hev : ∀ (a : Nat) (p : ReasoningPlan) (fb : String),
      evalOf envAllLow "task" a p fb =
        ⟨ratPoint2, "REJECT", "Réponse trop courte ou vide.",
          "La réponse est insuffisante. Développe le contenu pour répondre au plan."⟩ := by
    intro a p fb
    unfold evalOf respOf
    show CriticAgent.evaluate "task" p.to_dict "too short"
      (envAllLow.judgeF a p "too short") = _
    unfold CriticAgent.evaluate
    rw [show heuristic_check "task" "too short" =
      some ⟨ratPoint2, "REJECT", "Réponse trop courte ou vide.",
        "La réponse est insuffisante. Développe le contenu pour répondre au plan."⟩
      from by decide]
  constructor
  · exact (cycle_exhaustion_spec envAllLow "task").1 2 planOne none 30 3 [] _ rfl
  · exact (cycle_exhaustion_spec envAllLow "task").2 2 planOne none 30 3 []
      (fun a p fb => by rw [hev]; decide)

/-! ## Claim C6: audit loop exit order -/

/-- Claim C6: with constraints extracted, each audit iteration applies its
exit conditions in order — (a) wall-clock timeout exceeded returns the
current output without raising, (b) an exhausted iteration budget
force-accepts, (c) a sufficiency score of at least 90 or the explicit
sufficiency flag accepts, (d) a required-change classification of NONE or
MINOR accepts — and otherwise one refinement is requested and the loop
continues; the loop is a total function, so the audit phase always returns
an output. -/
theorem audit_exit_order_spec (env : EngineEnv) :
    (∀ (timeout : Int) (maxIter checkIdx iteration : Nat) (current : String),
      (timeout : Rat) < env.elapsedF checkIdx →
      auditLoop env timeout maxIter checkIdx iteration current = current) ∧
    (∀ (timeout : Int) (maxIter checkIdx iteration : Nat) (current : String),
      ¬ (timeout : Rat) < env.elapsedF checkIdx → maxIter ≤ iteration →
      auditLoop env timeout maxIter checkIdx iteration current = current) ∧
    (∀ (timeout : Int) (maxIter checkIdx iteration : Nat) (current : String)
        (ad : AuditRaw),
      ¬ (timeout : Rat) < env.elapsedF checkIdx → iteration < maxIter →
      env.auditF checkIdx current = .ok ad →
      (ad.is_sufficient.getD false = true ∨
        (90 : Rat) ≤ ad.structural_sufficiency_score.getD 0) →
      auditLoop env timeout maxIter checkIdx iteration current = current) ∧
    (∀ (timeout : Int) (maxIter checkIdx iteration : Nat) (current : String)
        (ad : AuditRaw),
      ¬ (timeout : Rat) < env.elapsedF checkIdx → iteration < maxIter →
      env.auditF checkIdx current = .ok ad →
      ad.is_sufficient.getD false = false →
      ¬ (90 : Rat) ≤ ad.structural_sufficiency_score.getD 0 →
      (ad.required_changes_type.getD "MAJOR" = "MINOR" ∨
        ad.required_changes_type.getD "MAJOR" = "NONE") →
      auditLoop env timeout maxIter checkIdx iteration current = current) ∧
    (∀ (timeout : Int) (maxIter checkIdx iteration : Nat) (current : String)
        (ad : AuditRaw) (refined : String),
      ¬ (timeout : Rat) < env.elapsedF checkIdx → iteration < maxIter →
      env.auditF checkIdx current = .ok ad →
      ad.is_sufficient.getD false = false →
      ¬ (90 : Rat) ≤ ad.structural_sufficiency_score.getD 0 →
      ad.required_changes_type.getD "MAJOR" ≠ "MINOR" →
      ad.required_changes_type.getD "MAJOR" ≠ "NONE" →
      env.refineF checkIdx current = .ok refined →
      auditLoop env timeout maxIter checkIdx iteration current =
        auditLoop env timeout maxIter (checkIdx + 1) (iteration + 1)
          (if !is_confused_output refined then refined else current)) ∧
    (∀ (raw : String) (analysis : Option Analysis)
        (ta amr : Nat) (cpx : String) (n : Nat),
      has_constraints analysis = true →
      synthesize_output env raw analysis ta amr cpx n =
        auditLoop env (compute_dynamic_timeout ta cpx n) amr 0 0
          (synthesisCandidate env raw)) := by
  refine ⟨?_, ?_, ?_, ?_, ?_, ?_⟩
  · intro timeout maxIter checkIdx iteration current ht
    unfold auditLoop
    rw [if_pos ht]
  · intro timeout maxIter checkIdx iteration current ht hit
    unfold auditLoop
    rw [if_neg ht, dif_pos hit]
  · intro timeout maxIter checkIdx iteration current ad ht hit had hc
    unfold auditLoop
    rw [if_neg ht, dif_neg (not_le.mpr hit)]
    simp only [had]
    rcases hc with hsuff | hscore
    · simp [hsuff]
    · simp [hscore]
  · intro timeout maxIter checkIdx iteration current ad ht hit had hsuff hscore hch
    unfold auditLoop
    rw [if_neg ht, dif_neg (not_le.mpr hit)]
    simp only [had]
    rcases hch with hm | hn
    · simp [hsuff, hscore, hm]
    · simp [hsuff, hscore, hn]
  · intro timeout maxIter checkIdx iteration current ad refined ht hit had hsuff
      hscore hm hn href
    conv_lhs => unfold auditLoop
    rw [if_neg ht, dif_neg (not_le.mpr hit)]
    simp only [had, href]
    simp [hsuff, hscore, hm, hn]
  · intro raw analysis ta amr cpx n hcon
    unfold synthesize_output
    rw [hcon]
    rfl

/-- An audit scenario accepting on the sufficiency score. -/
def envAuditScore : EngineEnv :=
  { baseEnv with auditF := fun _ _ => .ok ⟨some 95, some false, some "MAJOR", none, none⟩ }

/-- An audit scenario accepting on a MINOR required-change classification. -/
def envAuditMinor : EngineEnv :=
  { baseEnv with auditF := fun _ _ => .ok ⟨some 50, some false, some "MINOR", none, none⟩ }

/-- An audit scenario requesting one refinement. -/
def envAuditRefine : EngineEnv :=
  { baseEnv with
    auditF := fun _ _ => .ok ⟨some 50, some false, some "MAJOR", none, none⟩
    refineF := fun _ _ => .ok "a better output" }

/-- A scenario whose wall clock is already past any small timeout. -/
def envClockLate : EngineEnv := { baseEnv with elapsedF := fun _ => 100 }

/-- Witness for C6: each exit condition of the audit loop applied at a
concrete scenario, plus the synthesize wrapper with constraints present. -/
theorem audit_exit_order_spec_witness :
    auditLoop envClockLate 10 3 0 0 "candidate" = "candidate" ∧
    auditLoop baseEnv 10 0 0 0 "candidate" = "candidate" ∧
    auditLoop envAuditScore 10 3 0 0 "candidate" = "candidate" ∧
    auditLoop envAuditMinor 10 3 0 0 "candidate" = "candidate" ∧
    auditLoop envAuditRefine 10 3 0 0 "candidate" =
      auditLoop envAuditRefine 10 3 1 1
        (if !is_confused_output "a better output" then "a better output"
          else "candidate") ∧
    synthesize_output envAuditScore "raw answer" (some ⟨"a", ["c1"]⟩) 30 3 "low" 1 =
      auditLoop envAuditScore (compute_dynamic_timeout 30 "low" 1) 3 0 0
        (synthesisCandidate envAuditScore "raw answer") := by
  refine ⟨?_, ?_, ?_, ?_, ?_, ?_⟩
  · exact (audit_exit_order_spec envClockLate).1 10 3 0 0 "candidate" (by decide)
  · exact (audit_exit_order_spec baseEnv).2.1 10 0 0 0 "candidate" (by decide)
      (by decide)
  · exact (audit_exit_order_spec envAuditScore).2.2.1 10 3 0 0 "candidate"
      ⟨some 95, some false, some "MAJOR", none, none⟩ (by decide) (by decide) rfl
      (Or.inr (by decide))
  · exact (audit_exit_order_spec envAuditMinor).2.2.2.1 10 3 0 0 "candidate"
      ⟨some 50, some false, some "MINOR", none, none⟩ (by decide) (by decide) rfl
      (by decide) (by decide) (Or.inl rfl)
  · exact (audit_exit_order_spec envAuditRefine).2.2.2.2.1 10 3 0 0 "candidate"
      ⟨some 50, some false, some "MAJOR", none, none⟩ "a better output"
      (by decide) (by decide) rfl (by decide) (by decide) (by decide) (by decide)
      rfl
  · exact (audit_exit_order_spec envAuditScore).2.2.2.2.2 "raw answer"
      (some ⟨"a", ["c1"]⟩) 30 3 "low" 1 (by decide)

end Autologic
